import Mathlib

/-!
Shallow embedding of the `ortho_clinical_ui` session workflow.

The embedding follows the Python source closely:

* `src/api/models/session.py` — `SessionStatus`, `PatientResponse`, `Question`, `Session`.
* `src/api/models/review.py` — `AcceptDecision`, `RejectReplaceDecision` and the
  pydantic field constraints (`min_length`) plus the `validate_icd10_format`
  field validator.
* `src/storage/sessions.py` — `SessionStorage`, a Python dict.  `get` returns the
  stored object itself (an alias), so in-place mutations made by route handlers
  are visible in the store even before `update` is called; the embedding models
  every in-place mutation of a fetched session as an immediate store write.
* `src/api/routes/session.py`, `chat.py`, `review.py` — the route handlers.
  The external assessment engine (`IntelligenceAdapter` backed by
  `ortho_intelligence`) is a collaborator: each handler that consults it takes
  the engine's reply for that single call as an explicit argument.

`datetime` values are modelled as abstract `Nat` ticks.  Python string
operations `strip`/`upper`/`isalpha`/`len` are modelled by `pyStrip`,
`pyUpper`, `Char.isAlpha` and `String.length`, which agree with Python on
ASCII input (all concrete inputs used below are ASCII).
-/

/-- `SessionStatus` enum from `src/api/models/session.py`. -/
inductive SessionStatus where
  | inProgress
  | pendingReview
  | reviewed
deriving DecidableEq

/-- The wire value of each status (`SessionStatus(str, Enum)` member values). -/
def SessionStatus.value : SessionStatus → String
  | .inProgress => "in_progress"
  | .pendingReview => "pending_review"
  | .reviewed => "reviewed"

/-- `PatientResponse` model: one recorded answer. -/
structure PatientResponse where
  question_id : String
  question_text : String
  answer : String
  timestamp : Nat
deriving DecidableEq

/-- `Question` model presented to the patient. -/
structure Question where
  question_id : String
  text : String
  question_type : String
  options : Option (List String)
deriving DecidableEq

/-- `Session` model: the central entity (all fields of the pydantic model). -/
structure Session where
  session_id : String
  status : SessionStatus
  created_at : Nat
  chief_complaint : Option String
  patient_responses : List PatientResponse
  suggested_icd10 : Option String
  suggested_condition_name : Option String
  reviewed_at : Option Nat
  clinician_id : Option String
  decision : Option String
  final_icd10 : Option String
  clinician_notes : Option String
  current_question_id : Option String
  questions_asked : Nat
deriving DecidableEq

deriving instance DecidableEq for Except

/-- Python truthiness of an `Optional[str]`: `not x` is true for `None` and `""`. -/
def pyStrFalsy : Option String → Bool
  | none => true
  | some s => s == ""

/-- `SessionStorage._sessions`: a Python dict, modelled as an association list
(first binding for a key wins, mirroring at most one binding per key). -/
abbrev Store := List (String × Session)

/-- `dict.get`: first binding for the key, if any. -/
def Store.get : Store → String → Option Session
  | [], _ => none
  | (k, v) :: rest, id => if k = id then some v else Store.get rest id

/-- `dict[k] = v`: replace the binding if present, else add it. -/
def Store.set : Store → String → Session → Store
  | [], id, s => [(id, s)]
  | (k, v) :: rest, id, s =>
      if k = id then (id, s) :: rest else (k, v) :: Store.set rest id s

theorem Store.get_set_self (st : Store) (id : String) (s : Session) :
    (Store.set st id s).get id = some s := by
  induction st with
  | nil => simp [Store.set, Store.get]
  | cons kv rest ih =>
      by_cases h : kv.1 = id
      · simp [Store.set, Store.get, h]
      · simp [Store.set, Store.get, h, ih]

theorem Store.get_set_ne (st : Store) (k id : String) (s : Session) (h : k ≠ id) :
    (Store.set st k s).get id = st.get id := by
  induction st with
  | nil => simp [Store.set, Store.get, h]
  | cons kv rest ih =>
      by_cases hk : kv.1 = k
      · simp [Store.set, Store.get, hk, h]
      · by_cases hid : kv.1 = id
        · simp [Store.set, Store.get, hk, hid, Ne.symm h]
        · simp [Store.set, Store.get, hk, hid, ih]

/-- Error taxonomy of the API surface (spec §7).  `notFound` is HTTP 404;
`invalidState` the 400s raised by the handlers for a wrong status, a missing
chief complaint, a missing active question, or a missing suggested code;
`validationError` a pydantic request-validation failure (422);
`invalidAnswer` the 400 raised when the engine rejects an answer
(`ValueError` from `answer_question`); `internalError` an unhandled exception
escaping the handler (500). -/
inductive ApiError where
  | notFound
  | invalidState
  | validationError
  | invalidAnswer
  | internalError
deriving DecidableEq

/-- `QuestionResult` dataclass from `src/intelligence/adapter.py`. -/
structure QuestionResult where
  question_id : String
  text : String
  question_type : String
  options : Option (List String)
deriving DecidableEq

/-- Conversion performed inline by the chat handlers when they wrap a
`QuestionResult` into the response `Question`. -/
def QuestionResult.toQuestion (q : QuestionResult) : Question :=
  { question_id := q.question_id, text := q.text,
    question_type := q.question_type, options := q.options }

/-- One candidate condition of the engine's differential
(`result.differential` elements: a name and its ICD-10 codes). -/
structure Condition where
  name : String
  icd10_codes : List String
deriving DecidableEq

/-- The raw engine evaluation (`session.evaluate()` result): an ordered
differential plus an audit hash. -/
structure EngineEvalResult where
  differential : List Condition
  audit_hash : String
deriving DecidableEq

/-- `EvaluationResult` dataclass from `src/intelligence/adapter.py`. -/
structure EvaluationResult where
  suggested_icd10 : String
  condition_name : String
  audit_hash : String
deriving DecidableEq

/-- `IntelligenceAdapter.evaluate` (`src/intelligence/adapter.py` lines
137–163), on a live engine session whose `evaluate()` returned `res`: keeps
only the top-ranked condition; falls back to code `"Z03.89"` when the
differential is empty or the top condition has no codes, and to condition
name `"Undetermined"` when the differential is empty. -/
def IntelligenceAdapter.evaluate (res : EngineEvalResult) : EvaluationResult :=
  match res.differential with
  | [] =>
      { suggested_icd10 := ("Z03.89"), condition_name := ("Undetermined"),
        audit_hash := res.audit_hash }
  | top :: _ =>
      { suggested_icd10 := top.icd10_codes.headD ("Z03.89"),
        condition_name := top.name, audit_hash := res.audit_hash }

/-- `CreateSessionResponse` from `src/api/routes/session.py`. -/
structure CreateSessionResponse where
  session_id : String
  status : String
  created_at : Nat
deriving DecidableEq

/-- `SessionResponse` (patient-safe projection) from `src/api/routes/session.py`:
its only fields are the four below. -/
structure SessionResponse where
  session_id : String
  status : String
  created_at : Nat
  questions_asked : Nat
deriving DecidableEq

/-- `create_session` handler (`src/api/routes/session.py` lines 55–78).
`CreateSessionRequest` declares `chief_complaint: str` with no constraint, so
request parsing never rejects a (string) complaint; the handler itself performs
no validation either.  `uuid.uuid4()` and `datetime.utcnow()` are supplied as
the arguments `fresh_id` and `now`. -/
def create_session (st : Store) (fresh_id : String) (now : Nat)
    (chief_complaint : String) : CreateSessionResponse × Store :=
  let s : Session :=
    { session_id := fresh_id, status := .inProgress, created_at := now,
      chief_complaint := some chief_complaint, patient_responses := [],
      suggested_icd10 := none, suggested_condition_name := none,
      reviewed_at := none, clinician_id := none, decision := none,
      final_icd10 := none, clinician_notes := none,
      current_question_id := none, questions_asked := 0 }
  ({ session_id := fresh_id, status := SessionStatus.inProgress.value,
     created_at := now },
   st.set fresh_id s)

/-- `get_session` handler (`src/api/routes/session.py` lines 81–100): the
patient-facing view. -/
def get_session (st : Store) (session_id : String) :
    Except ApiError SessionResponse :=
  match st.get session_id with
  | none => .error .notFound
  | some s =>
      .ok { session_id := s.session_id, status := s.status.value,
            created_at := s.created_at, questions_asked := s.questions_asked }

/-- `StartChatResponse` from `src/api/routes/chat.py`. -/
structure StartChatResponse where
  session_id : String
  question : Option Question
  message : String
deriving DecidableEq

/-- `AnswerResponse` from `src/api/routes/chat.py`. -/
structure AnswerResponse where
  session_id : String
  question : Option Question
  complete : Bool
  message : String
deriving DecidableEq

/-- `start_chat` handler (`src/api/routes/chat.py` lines 56–104).
`engineFirst` is the reply of `adapter.start_session` (first question or
`None`).  Note the `question_result is None` branch returns the completion
message WITHOUT changing the status or writing to storage. -/
def start_chat (st : Store) (session_id : String)
    (engineFirst : Option QuestionResult) :
    Except ApiError StartChatResponse × Store :=
  match st.get session_id with
  | none => (.error .notFound, st)
  | some s =>
      if s.status ≠ .inProgress then (.error .invalidState, st)
      else if pyStrFalsy s.chief_complaint then (.error .invalidState, st)
      else
        match engineFirst with
        | none =>
            (.ok { session_id := session_id, question := none,
                   message := "Assessment complete. A clinician will review your responses." },
             st)
        | some q =>
            let s1 := { s with current_question_id := some q.question_id }
            (.ok { session_id := session_id, question := some q.toQuestion,
                   message := "Please answer the following question." },
             st.set session_id s1)

/-- Outcome of the single `adapter.answer_question` call made by
`submit_answer`: the next question (or `None`), a `ValueError` (the engine
found the answer invalid / its session missing), or any other exception. -/
inductive EngineAnswerOutcome where
  | next (q : Option QuestionResult)
  | valueError
  | failure
deriving DecidableEq

/-- `submit_answer` handler (`src/api/routes/chat.py` lines 139–225).
The response is appended and `questions_asked` incremented BEFORE the engine
is consulted; because `storage.get` returned an alias of the stored object,
that mutation is a store write (modelled by the immediate `Store.set`), so it
survives an engine error even though `storage.update` is never reached.
`engine` is the `adapter.answer_question` outcome; `evalOutcome` is the raw
engine evaluation used if the assessment completes (`.error` = the adapter
raised, which `submit_answer` does not catch). -/
def submit_answer (st : Store) (session_id : String) (answer : String)
    (now : Nat) (engine : EngineAnswerOutcome)
    (evalOutcome : Except Unit EngineEvalResult) :
    Except ApiError AnswerResponse × Store :=
  match st.get session_id with
  | none => (.error .notFound, st)
  | some s =>
      if s.status ≠ .inProgress then (.error .invalidState, st)
      else if pyStrFalsy s.current_question_id then (.error .invalidState, st)
      else
        let qid := s.current_question_id.getD ("")
        let resp : PatientResponse :=
          { question_id := qid,
            question_text := "Question " ++ toString (s.questions_asked + 1),
            answer := answer, timestamp := now }
        let s1 := { s with
                    patient_responses := s.patient_responses ++ [resp],
                    questions_asked := s.questions_asked + 1 }
        let st1 := st.set session_id s1
        match engine with
        | .valueError => (.error .invalidAnswer, st1)
        | .failure => (.error .internalError, st1)
        | .next (some q) =>
            let s2 := { s1 with current_question_id := some q.question_id }
            (.ok { session_id := session_id, question := some q.toQuestion,
                   complete := false,
                   message := "Please answer the following question." },
             st1.set session_id s2)
        | .next none =>
            match evalOutcome with
            | .error _ => (.error .internalError, st1)
            | .ok res =>
                let ev := IntelligenceAdapter.evaluate res
                let s2 := { s1 with
                            suggested_icd10 := some ev.suggested_icd10,
                            suggested_condition_name := some ev.condition_name,
                            status := .pendingReview,
                            current_question_id := none }
                (.ok { session_id := session_id, question := none,
                       complete := true,
                       message := "Thank you. Your responses will be reviewed by a licensed clinician." },
                 st1.set session_id s2)

/-- `complete_assessment` handler (`src/api/routes/chat.py` lines 228–268).
`evalOutcome` `.error` means `adapter.evaluate` raised; the handler catches
every exception and falls back to the sentinel suggestion. -/
def complete_assessment (st : Store) (session_id : String)
    (evalOutcome : Except Unit EngineEvalResult) :
    Except ApiError AnswerResponse × Store :=
  match st.get session_id with
  | none => (.error .notFound, st)
  | some s =>
      if s.status ≠ .inProgress then (.error .invalidState, st)
      else
        let sugg : String × String :=
          match evalOutcome with
          | .ok res =>
              let ev := IntelligenceAdapter.evaluate res
              (ev.suggested_icd10, ev.condition_name)
          | .error _ => (("Z03.89"), ("Observation for suspected condition"))
        let s1 := { s with
                    suggested_icd10 := some sugg.1,
                    suggested_condition_name := some sugg.2,
                    status := .pendingReview, current_question_id := none }
        (.ok { session_id := session_id, question := none, complete := true,
               message := "Thank you. Your responses will be reviewed by a licensed clinician." },
         st.set session_id s1)

/-- `AcceptDecision` from `src/api/models/review.py`. -/
structure AcceptDecision where
  clinician_id : String
  notes : String
deriving DecidableEq

/-- Request-body validation of `AcceptDecision`: pydantic enforces
`clinician_id: min_length=1` and `notes: min_length=10`; any violation is a
request `ValidationError`, raised before the handler body runs. -/
def AcceptDecision.parse (clinician_id notes : String) :
    Except ApiError AcceptDecision :=
  if clinician_id.length < 1 then .error .validationError
  else if notes.length < 10 then .error .validationError
  else .ok { clinician_id := clinician_id, notes := notes }

/-- `RejectReplaceDecision` from `src/api/models/review.py` (with
`replacement_icd10` already normalized by its validator). -/
structure RejectReplaceDecision where
  clinician_id : String
  replacement_icd10 : String
  reason : String
deriving DecidableEq

/-- Python `str.strip()`: drop leading and trailing whitespace. -/
def pyStrip (s : String) : String :=
  String.mk
    (((s.data.dropWhile Char.isWhitespace).reverse.dropWhile
        Char.isWhitespace).reverse)

/-- Python `str.upper()` on ASCII text. -/
def pyUpper (s : String) : String :=
  String.mk (s.data.map Char.toUpper)

/-- The `validate_icd10_format` field validator: `v = v.strip().upper()`, then
`if not v[0].isalpha(): raise ValueError(...)`.  A `ValueError` becomes a
pydantic `ValidationError`; but when the stripped string is empty, `v[0]`
raises `IndexError`, which pydantic does not convert — it escapes as an
internal server error. -/
def validate_icd10_format (v : String) : Except ApiError String :=
  let v := pyUpper (pyStrip v)
  match v.data with
  | [] => .error .internalError
  | c :: _ => if c.isAlpha then .ok v else .error .validationError

/-- Request-body validation of `RejectReplaceDecision`: pydantic enforces
`clinician_id: min_length=1`, `replacement_icd10: min_length=3` (on the RAW
input, before the field validator runs) and `reason: min_length=20`; the
field validator then normalizes `replacement_icd10`. -/
def RejectReplaceDecision.parse (clinician_id replacement_icd10 reason : String) :
    Except ApiError RejectReplaceDecision :=
  if clinician_id.length < 1 then .error .validationError
  else if replacement_icd10.length < 3 then .error .validationError
  else
    match validate_icd10_format replacement_icd10 with
    | .error e => .error e
    | .ok v =>
        if reason.length < 20 then .error .validationError
        else .ok { clinician_id := clinician_id, replacement_icd10 := v,
                   reason := reason }

/-- `ReviewResult` from `src/api/routes/review.py`. -/
structure ReviewResult where
  session_id : String
  decision : String
  final_icd10 : String
  reviewed_by : String
  reviewed_at : Nat
deriving DecidableEq

/-- `accept_diagnosis` handler (`src/api/routes/review.py` lines 84–128),
including the request parse of its `AcceptDecision` body.  The suggested-code
guard is Python truthiness (`if not session.suggested_icd10`), so both `None`
and `""` fail it. -/
def accept_diagnosis (st : Store) (session_id clinician_id notes : String)
    (now : Nat) : Except ApiError ReviewResult × Store :=
  match AcceptDecision.parse clinician_id notes with
  | .error e => (.error e, st)
  | .ok d =>
      match st.get session_id with
      | none => (.error .notFound, st)
      | some s =>
          if s.status ≠ .pendingReview then (.error .invalidState, st)
          else if pyStrFalsy s.suggested_icd10 then (.error .invalidState, st)
          else
            let code := s.suggested_icd10.getD ("")
            let s1 := { s with
                        status := .reviewed, reviewed_at := some now,
                        clinician_id := some d.clinician_id,
                        decision := some ("accepted"),
                        final_icd10 := some code,
                        clinician_notes := some d.notes }
            (.ok { session_id := session_id, decision := ("accepted"),
                   final_icd10 := code, reviewed_by := d.clinician_id,
                   reviewed_at := now },
             st.set session_id s1)

/-- `reject_and_replace` handler (`src/api/routes/review.py` lines 131–170),
including the request parse of its `RejectReplaceDecision` body.  No check of
the existing suggested code is made. -/
def reject_and_replace (st : Store)
    (session_id clinician_id replacement_icd10 reason : String) (now : Nat) :
    Except ApiError ReviewResult × Store :=
  match RejectReplaceDecision.parse clinician_id replacement_icd10 reason with
  | .error e => (.error e, st)
  | .ok d =>
      match st.get session_id with
      | none => (.error .notFound, st)
      | some s =>
          if s.status ≠ .pendingReview then (.error .invalidState, st)
          else
            let s1 := { s with
                        status := .reviewed, reviewed_at := some now,
                        clinician_id := some d.clinician_id,
                        decision := some ("rejected_replaced"),
                        final_icd10 := some d.replacement_icd10,
                        clinician_notes := some d.reason }
            (.ok { session_id := session_id, decision := ("rejected_replaced"),
                   final_icd10 := d.replacement_icd10,
                   reviewed_by := d.clinician_id, reviewed_at := now },
             st.set session_id s1)

/-- One boundary operation of the API surface, with the external inputs
(fresh UUID, clock value, engine replies) it consumes. -/
inductive Op where
  | create (fresh_id : String) (now : Nat) (chief_complaint : String)
  | getView (session_id : String)
  | startChat (session_id : String) (engineFirst : Option QuestionResult)
  | answer (session_id answer_text : String) (now : Nat)
      (engine : EngineAnswerOutcome) (evalOutcome : Except Unit EngineEvalResult)
  | complete (session_id : String) (evalOutcome : Except Unit EngineEvalResult)
  | accept (session_id clinician_id notes : String) (now : Nat)
  | reject (session_id clinician_id replacement_icd10 reason : String) (now : Nat)

/-- The store produced by running one operation. -/
def Op.apply : Op → Store → Store
  | .create fresh_id now chief, st => (create_session st fresh_id now chief).2
  | .getView _, st => st
  | .startChat id engineFirst, st => (start_chat st id engineFirst).2
  | .answer id ans now engine evalOutcome, st =>
      (submit_answer st id ans now engine evalOutcome).2
  | .complete id evalOutcome, st => (complete_assessment st id evalOutcome).2
  | .accept id cid notes now, st => (accept_diagnosis st id cid notes now).2
  | .reject id cid repl reason now, st =>
      (reject_and_replace st id cid repl reason now).2

/-- Freshness of the identifier drawn from `uuid.uuid4()`: a `create` never
collides with a stored session.  All other operations hold trivially. -/
def Op.freshOk : Op → Store → Prop
  | .create fresh_id _ _, st => st.get fresh_id = none
  | _, _ => True

instance (op : Op) (st : Store) : Decidable (Op.freshOk op st) := by
  cases op <;> simp only [Op.freshOk] <;> infer_instance

theorem Store.set_set (st : Store) (id : String) (a b : Session) :
    (Store.set st id a).set id b = Store.set st id b := by
  induction st with
  | nil => simp [Store.set]
  | cons kv rest ih =>
      by_cases h : kv.1 = id
      · simp [Store.set, h]
      · simp [Store.set, h, ih]

/-- `start_chat` writes only under its own session id. -/
theorem start_chat_get_other (st : Store) (sid : String)
    (engineFirst : Option QuestionResult) (id : String) (h : sid ≠ id) :
    (start_chat st sid engineFirst).2.get id = st.get id := by
  unfold start_chat
  cases hg : st.get sid with
  | none => simp
  | some s =>
      by_cases h1 : s.status ≠ SessionStatus.inProgress
      · simp [h1]
      · by_cases h2 : pyStrFalsy s.chief_complaint
        · simp [h1, h2]
        · cases engineFirst with
          | none => simp [h1, h2]
          | some q => simp [h1, h2, Store.get_set_ne st sid id _ h]

/-- `submit_answer` writes only under its own session id. -/
theorem submit_answer_get_other (st : Store) (sid ans : String) (now : Nat)
    (engine : EngineAnswerOutcome) (evalOutcome : Except Unit EngineEvalResult)
    (id : String) (h : sid ≠ id) :
    (submit_answer st sid ans now engine evalOutcome).2.get id = st.get id := by
  unfold submit_answer
  cases hg : st.get sid with
  | none => simp
  | some s =>
      by_cases h1 : s.status ≠ SessionStatus.inProgress
      · simp [h1]
      · by_cases h2 : pyStrFalsy s.current_question_id
        · simp [h1, h2]
        · cases engine with
          | valueError => simp [h1, h2, Store.get_set_ne st sid id _ h]
          | failure => simp [h1, h2, Store.get_set_ne st sid id _ h]
          | next q =>
              cases q with
              | none =>
                  cases evalOutcome with
                  | error e => simp [h1, h2, Store.get_set_ne st sid id _ h]
                  | ok res =>
                      simp [h1, h2, Store.set_set, Store.get_set_ne st sid id _ h]
              | some q =>
                  simp [h1, h2, Store.set_set, Store.get_set_ne st sid id _ h]

/-- `complete_assessment` writes only under its own session id. -/
theorem complete_assessment_get_other (st : Store) (sid : String)
    (evalOutcome : Except Unit EngineEvalResult) (id : String) (h : sid ≠ id) :
    (complete_assessment st sid evalOutcome).2.get id = st.get id := by
  unfold complete_assessment
  cases hg : st.get sid with
  | none => simp
  | some s =>
      by_cases h1 : s.status ≠ SessionStatus.inProgress
      · simp [h1]
      · simp [h1, Store.get_set_ne st sid id _ h]

/-- `accept_diagnosis` writes only under its own session id. -/
theorem accept_diagnosis_get_other (st : Store) (sid cid notes : String)
    (now : Nat) (id : String) (h : sid ≠ id) :
    (accept_diagnosis st sid cid notes now).2.get id = st.get id := by
  unfold accept_diagnosis
  cases hp : AcceptDecision.parse cid notes with
  | error e => simp
  | ok d =>
      cases hg : st.get sid with
      | none => simp
      | some s =>
          by_cases h1 : s.status ≠ SessionStatus.pendingReview
          · simp [h1]
          · by_cases h2 : pyStrFalsy s.suggested_icd10
            · simp [h1, h2]
            · simp [h1, h2, Store.get_set_ne st sid id _ h]

/-- `reject_and_replace` writes only under its own session id. -/
theorem reject_and_replace_get_other (st : Store)
    (sid cid repl reason : String) (now : Nat) (id : String) (h : sid ≠ id) :
    (reject_and_replace st sid cid repl reason now).2.get id = st.get id := by
  unfold reject_and_replace
  cases hp : RejectReplaceDecision.parse cid repl reason with
  | error e => simp
  | ok d =>
      cases hg : st.get sid with
      | none => simp
      | some s =>
          by_cases h1 : s.status ≠ SessionStatus.pendingReview
          · simp [h1]
          · simp [h1, Store.get_set_ne st sid id _ h]

/-- The chat handlers leave the store untouched when the session is not
`IN_PROGRESS`. -/
theorem start_chat_frozen (st : Store) (sid : String)
    (engineFirst : Option QuestionResult) (s : Session)
    (hg : st.get sid = some s) (h1 : s.status ≠ SessionStatus.inProgress) :
    (start_chat st sid engineFirst).2 = st := by
  unfold start_chat
  simp [hg, h1]

theorem submit_answer_frozen (st : Store) (sid ans : String) (now : Nat)
    (engine : EngineAnswerOutcome) (evalOutcome : Except Unit EngineEvalResult)
    (s : Session) (hg : st.get sid = some s)
    (h1 : s.status ≠ SessionStatus.inProgress) :
    (submit_answer st sid ans now engine evalOutcome).2 = st := by
  unfold submit_answer
  simp [hg, h1]

theorem complete_assessment_frozen (st : Store) (sid : String)
    (evalOutcome : Except Unit EngineEvalResult) (s : Session)
    (hg : st.get sid = some s) (h1 : s.status ≠ SessionStatus.inProgress) :
    (complete_assessment st sid evalOutcome).2 = st := by
  unfold complete_assessment
  simp [hg, h1]

/-- The review handlers leave the store untouched when the session is not
`PENDING_REVIEW`. -/
theorem accept_diagnosis_frozen (st : Store) (sid cid notes : String)
    (now : Nat) (s : Session) (hg : st.get sid = some s)
    (h1 : s.status ≠ SessionStatus.pendingReview) :
    (accept_diagnosis st sid cid notes now).2 = st := by
  unfold accept_diagnosis
  cases hp : AcceptDecision.parse cid notes with
  | error e => simp
  | ok d => simp [hg, h1]

theorem reject_and_replace_frozen (st : Store) (sid cid repl reason : String)
    (now : Nat) (s : Session) (hg : st.get sid = some s)
    (h1 : s.status ≠ SessionStatus.pendingReview) :
    (reject_and_replace st sid cid repl reason now).2 = st := by
  unfold reject_and_replace
  cases hp : RejectReplaceDecision.parse cid repl reason with
  | error e => simp
  | ok d => simp [hg, h1]

/-- A concrete session satisfying the data-model invariants, used to
instantiate theorems with hypotheses. -/
def sampleSession : Session :=
  { session_id := "s1", status := .pendingReview, created_at := 3,
    chief_complaint := some ("knee pain"), patient_responses := [],
    suggested_icd10 := some ("M17.11"),
    suggested_condition_name := some ("Primary osteoarthritis, right knee"),
    reviewed_at := none, clinician_id := none, decision := none,
    final_icd10 := none, clinician_notes := none,
    current_question_id := none, questions_asked := 0 }

/-- A one-session store holding `sampleSession` under key `"s1"`. -/
def sampleStore : Store := [(("s1"), sampleSession)]

/-- C1: the patient-facing session view returns only
`{session_id, status, created_at, questions_asked}` and, for every session in
every status, never depends on (hence never contains) the suggested code, the
suggested condition name, or any review field: the view equals the four-field
projection, and rewriting all clinical/review fields of the stored session
leaves the view unchanged. -/
theorem c1_patient_view_excludes_clinical_fields
    (st : Store) (id : String) (s : Session) (h : st.get id = some s) :
    get_session st id =
      .ok { session_id := s.session_id, status := s.status.value,
            created_at := s.created_at, questions_asked := s.questions_asked }
    ∧ ∀ (sug scn : Option String) (ra : Option Nat)
        (ci dec fi cn : Option String),
        get_session
          (st.set id { s with
                       suggested_icd10 := sug, suggested_condition_name := scn,
                       reviewed_at := ra, clinician_id := ci, decision := dec,
                       final_icd10 := fi, clinician_notes := cn }) id
          = get_session st id := by
  constructor
  · simp [get_session, h]
  · intro sug scn ra ci dec fi cn
    simp [get_session, h, Store.get_set_self]

/-- Witness for C1 at a concrete store and session. -/
theorem c1_witness :
    Store.get sampleStore ("s1") = some sampleSession ∧
    (get_session sampleStore ("s1") =
      .ok { session_id := sampleSession.session_id,
            status := sampleSession.status.value,
            created_at := sampleSession.created_at,
            questions_asked := sampleSession.questions_asked }
    ∧ ∀ (sug scn : Option String) (ra : Option Nat)
        (ci dec fi cn : Option String),
        get_session
          (sampleStore.set ("s1")
            { sampleSession with
              suggested_icd10 := sug, suggested_condition_name := scn,
              reviewed_at := ra, clinician_id := ci, decision := dec,
              final_icd10 := fi, clinician_notes := cn }) ("s1")
          = get_session sampleStore ("s1")) :=
  ⟨by decide,
   c1_patient_view_excludes_clinical_fields sampleStore ("s1") sampleSession
     (by decide)⟩

/-- C2: for every stored session whose status is not `PENDING_REVIEW`
(including `REVIEWED`), `accept_diagnosis` and `reject_and_replace` fail with
`InvalidState` and leave the store unchanged (given that the request body
itself parses, since pydantic validation runs first); and a `REVIEWED`
session is never changed again by any operation, so it is never reviewed a
second time and its status never changes. -/
theorem c2_no_review_outside_pending
    (st : Store) (id cid notes repl reason : String) (now : Nat) (s : Session)
    (h : st.get id = some s) (hst : s.status ≠ SessionStatus.pendingReview) :
    ((AcceptDecision.parse cid notes).isOk →
        accept_diagnosis st id cid notes now = (.error .invalidState, st))
    ∧ ((RejectReplaceDecision.parse cid repl reason).isOk →
        reject_and_replace st id cid repl reason now = (.error .invalidState, st))
    ∧ (s.status = SessionStatus.reviewed → ∀ op : Op, Op.freshOk op st →
        (Op.apply op st).get id = some s) := by
  refine ⟨?_, ?_, ?_⟩
  · intro hp
    cases hpe : AcceptDecision.parse cid notes with
    | error e => rw [hpe] at hp; exact absurd hp (by simp [Except.isOk, Except.toBool])
    | ok d => unfold accept_diagnosis; simp [hpe, h, hst]
  · intro hp
    cases hpe : RejectReplaceDecision.parse cid repl reason with
    | error e => rw [hpe] at hp; exact absurd hp (by simp [Except.isOk, Except.toBool])
    | ok d => unfold reject_and_replace; simp [hpe, h, hst]
  · intro hrev op hfresh
    have hip : s.status ≠ SessionStatus.inProgress := by rw [hrev]; intro hc; cases hc
    cases op with
    | create fresh nowc chief =>
        simp only [Op.freshOk] at hfresh
        have hne : fresh ≠ id := by
          intro he; rw [he, h] at hfresh; cases hfresh
        simp only [Op.apply, create_session]
        rw [Store.get_set_ne st fresh id _ hne, h]
    | getView sid => simpa [Op.apply] using h
    | startChat sid engineFirst =>
        by_cases he : sid = id
        · subst he
          simp only [Op.apply]
          rw [start_chat_frozen st sid engineFirst s h hip, h]
        · simp only [Op.apply]
          rw [start_chat_get_other st sid engineFirst id he, h]
    | answer sid ans nowa engine evalOutcome =>
        by_cases he : sid = id
        · subst he
          simp only [Op.apply]
          rw [submit_answer_frozen st sid ans nowa engine evalOutcome s h hip, h]
        · simp only [Op.apply]
          rw [submit_answer_get_other st sid ans nowa engine evalOutcome id he, h]
    | complete sid evalOutcome =>
        by_cases he : sid = id
        · subst he
          simp only [Op.apply]
          rw [complete_assessment_frozen st sid evalOutcome s h hip, h]
        · simp only [Op.apply]
          rw [complete_assessment_get_other st sid evalOutcome id he, h]
    | accept sid cid2 notes2 now2 =>
        by_cases he : sid = id
        · subst he
          simp only [Op.apply]
          rw [accept_diagnosis_frozen st sid cid2 notes2 now2 s h hst, h]
        · simp only [Op.apply]
          rw [accept_diagnosis_get_other st sid cid2 notes2 now2 id he, h]
    | reject sid cid2 repl2 reason2 now2 =>
        by_cases he : sid = id
        · subst he
          simp only [Op.apply]
          rw [reject_and_replace_frozen st sid cid2 repl2 reason2 now2 s h hst, h]
        · simp only [Op.apply]
          rw [reject_and_replace_get_other st sid cid2 repl2 reason2 now2 id he, h]

/-- A concrete already-reviewed session. -/
def reviewedSession : Session :=
  { sampleSession with
    status := .reviewed, reviewed_at := some 7,
    clinician_id := some ("dr1"), decision := some ("accepted"),
    final_icd10 := some ("M17.11"),
    clinician_notes := some ("accepting the suggestion") }

/-- A one-session store holding `reviewedSession` under key `"s1"`. -/
def reviewedStore : Store := [(("s1"), reviewedSession)]

/-- Witness for C2 at a concrete reviewed session. -/
theorem c2_witness :
    Store.get reviewedStore ("s1") = some reviewedSession ∧
    reviewedSession.status ≠ SessionStatus.pendingReview ∧
    (((AcceptDecision.parse ("dr1") ("looks correct to me")).isOk →
        accept_diagnosis reviewedStore ("s1") ("dr1") ("looks correct to me") 9 =
          (.error .invalidState, reviewedStore))
    ∧ ((RejectReplaceDecision.parse ("dr1") ("M25.561")
          ("suggestion does not match the findings")).isOk →
        reject_and_replace reviewedStore ("s1") ("dr1") ("M25.561")
            ("suggestion does not match the findings") 9 =
          (.error .invalidState, reviewedStore))
    ∧ (reviewedSession.status = SessionStatus.reviewed → ∀ op : Op,
        Op.freshOk op reviewedStore →
        (Op.apply op reviewedStore).get ("s1") = some reviewedSession)) :=
  ⟨by decide, by decide,
   c2_no_review_outside_pending reviewedStore ("s1") ("dr1")
     ("looks correct to me") ("M25.561")
     ("suggestion does not match the findings") 9 reviewedSession
     (by decide) (by decide)⟩

/-- Every stored `PENDING_REVIEW` session carries a suggested code. -/
def suggestionPresent (st : Store) : Prop :=
  ∀ id s, st.get id = some s → s.status = SessionStatus.pendingReview →
    s.suggested_icd10 ≠ none

/-- C3: the suggestion invariant is preserved by every operation — any session
that reaches `PENDING_REVIEW` (engine-driven completion in `submit_answer` or
manual completion) has a non-null suggested code at that point; moreover the
engine-side fallback stores `"Z03.89"`/`"Undetermined"` when the differential
is empty, and `complete_assessment` stores
`"Z03.89"`/`"Observation for suspected condition"` when evaluation fails. -/
theorem c3_pending_review_has_suggestion
    (st : Store) (op : Op) (hinv : suggestionPresent st)
    (hfresh : Op.freshOk op st) :
    suggestionPresent (Op.apply op st)
    ∧ (∀ ah, IntelligenceAdapter.evaluate
          { differential := [], audit_hash := ah } =
        { suggested_icd10 := ("Z03.89"), condition_name := ("Undetermined"),
          audit_hash := ah })
    ∧ (∀ sid s, st.get sid = some s → s.status = SessionStatus.inProgress →
        ∀ e : Unit, (complete_assessment st sid (.error e)).2.get sid =
          some { s with
                 suggested_icd10 := some ("Z03.89"),
                 suggested_condition_name :=
                   some ("Observation for suspected condition"),
                 status := .pendingReview, current_question_id := none }) := by
  refine ⟨?_, ?_, ?_⟩
  · intro id2 s2 hg2 hstat2
    cases op with
    | create fresh nowc chief =>
        simp only [Op.apply, create_session] at hg2
        by_cases he : fresh = id2
        · subst he
          rw [Store.get_set_self] at hg2
          injection hg2 with hg2
          rw [← hg2] at hstat2
          cases hstat2
        · rw [Store.get_set_ne st fresh id2 _ he] at hg2
          exact hinv id2 s2 hg2 hstat2
    | getView sid =>
        exact hinv id2 s2 hg2 hstat2
    | startChat sid engineFirst =>
        by_cases he : sid = id2
        · subst he
          simp only [Op.apply] at hg2
          unfold start_chat at hg2
          cases hge : st.get sid with
          | none => simp [hge] at hg2
          | some s =>
              by_cases h1 : s.status ≠ SessionStatus.inProgress
              · simp [hge, h1] at hg2
                subst hg2
                exact hinv sid s hge hstat2
              · by_cases h2 : pyStrFalsy s.chief_complaint
                · simp [hge, h1, h2] at hg2
                  subst hg2
                  exact hinv sid s hge hstat2
                · cases engineFirst with
                  | none =>
                      simp [hge, h1, h2] at hg2
                      subst hg2
                      exact hinv sid s hge hstat2
                  | some q =>
                      simp [hge, h1, h2, Store.get_set_self] at hg2
                      subst hg2
                      simp at hstat2 ⊢
                      exact hinv sid s hge hstat2
        · simp only [Op.apply] at hg2
          rw [start_chat_get_other st sid engineFirst id2 he] at hg2
          exact hinv id2 s2 hg2 hstat2
    | answer sid ans nowa engine evalOutcome =>
        by_cases he : sid = id2
        · subst he
          simp only [Op.apply] at hg2
          unfold submit_answer at hg2
          cases hge : st.get sid with
          | none => simp [hge] at hg2
          | some s =>
              by_cases h1 : s.status ≠ SessionStatus.inProgress
              · simp [hge, h1] at hg2
                subst hg2
                exact hinv sid s hge hstat2
              · push_neg at h1
                by_cases h2 : pyStrFalsy s.current_question_id
                · simp [hge, h1, h2] at hg2
                  subst hg2
                  exact hinv sid s hge hstat2
                · cases engine with
                  | valueError =>
                      simp [hge, h1, h2, Store.get_set_self] at hg2
                      subst hg2
                      simp [h1] at hstat2
                  | failure =>
                      simp [hge, h1, h2, Store.get_set_self] at hg2
                      subst hg2
                      simp [h1] at hstat2
                  | next q =>
                      cases q with
                      | some q =>
                          simp [hge, h1, h2, Store.set_set,
                            Store.get_set_self] at hg2
                          subst hg2
                          simp [h1] at hstat2
                      | none =>
                          cases evalOutcome with
                          | error e =>
                              simp [hge, h1, h2, Store.get_set_self] at hg2
                              subst hg2
                              simp [h1] at hstat2
                          | ok res =>
                              simp [hge, h1, h2, Store.set_set,
                                Store.get_set_self] at hg2
                              subst hg2
                              simp
        · simp only [Op.apply] at hg2
          rw [submit_answer_get_other st sid ans nowa engine evalOutcome id2 he]
            at hg2
          exact hinv id2 s2 hg2 hstat2
    | complete sid evalOutcome =>
        by_cases he : sid = id2
        · subst he
          simp only [Op.apply] at hg2
          unfold complete_assessment at hg2
          cases hge : st.get sid with
          | none => simp [hge] at hg2
          | some s =>
              by_cases h1 : s.status ≠ SessionStatus.inProgress
              · simp [hge, h1] at hg2
                subst hg2
                exact hinv sid s hge hstat2
              · simp [hge, h1, Store.get_set_self] at hg2
                subst hg2
                simp
        · simp only [Op.apply] at hg2
          rw [complete_assessment_get_other st sid evalOutcome id2 he] at hg2
          exact hinv id2 s2 hg2 hstat2
    | accept sid cid notes now2 =>
        by_cases he : sid = id2
        · subst he
          simp only [Op.apply] at hg2
          unfold accept_diagnosis at hg2
          cases hpe : AcceptDecision.parse cid notes with
          | error e =>
              simp [hpe] at hg2
              exact hinv sid s2 hg2 hstat2
          | ok d =>
              cases hge : st.get sid with
              | none => simp [hpe, hge] at hg2
              | some s =>
                  by_cases h1 : s.status ≠ SessionStatus.pendingReview
                  · simp [hpe, hge, h1] at hg2
                    subst hg2
                    exact hinv sid s hge hstat2
                  · by_cases h2 : pyStrFalsy s.suggested_icd10
                    · simp [hpe, hge, h1, h2] at hg2
                      subst hg2
                      exact hinv sid s hge hstat2
                    · simp [hpe, hge, h1, h2, Store.get_set_self] at hg2
                      subst hg2
                      simp at hstat2
        · simp only [Op.apply] at hg2
          rw [accept_diagnosis_get_other st sid cid notes now2 id2 he] at hg2
          exact hinv id2 s2 hg2 hstat2
    | reject sid cid repl reason now2 =>
        by_cases he : sid = id2
        · subst he
          simp only [Op.apply] at hg2
          unfold reject_and_replace at hg2
          cases hpe : RejectReplaceDecision.parse cid repl reason with
          | error e =>
              simp [hpe] at hg2
              exact hinv sid s2 hg2 hstat2
          | ok d =>
              cases hge : st.get sid with
              | none => simp [hpe, hge] at hg2
              | some s =>
                  by_cases h1 : s.status ≠ SessionStatus.pendingReview
                  · simp [hpe, hge, h1] at hg2
                    subst hg2
                    exact hinv sid s hge hstat2
                  · simp [hpe, hge, h1, Store.get_set_self] at hg2
                    subst hg2
                    simp at hstat2
        · simp only [Op.apply] at hg2
          rw [reject_and_replace_get_other st sid cid repl reason now2 id2 he]
            at hg2
          exact hinv id2 s2 hg2 hstat2
  · intro ah
    rfl
  · intro sid s hge hip e
    unfold complete_assessment
    simp [hge, hip, Store.get_set_self]

/-- A concrete in-progress session with an active question and no
suggestion yet. -/
def inProgressSession : Session :=
  { sampleSession with
    status := .inProgress, suggested_icd10 := none,
    suggested_condition_name := none,
    current_question_id := some ("q1_location") }

/-- A one-session store holding `inProgressSession` under key `"s1"`. -/
def inProgressStore : Store := [(("s1"), inProgressSession)]

/-- Witness for C3: manual completion with a failed evaluation, applied to a
concrete in-progress session. -/
theorem c3_witness :
    suggestionPresent
      (Op.apply (.complete ("s1") (.error ())) inProgressStore)
    ∧ (∀ ah, IntelligenceAdapter.evaluate
          { differential := [], audit_hash := ah } =
        { suggested_icd10 := ("Z03.89"), condition_name := ("Undetermined"),
          audit_hash := ah })
    ∧ (∀ sid s, inProgressStore.get sid = some s →
        s.status = SessionStatus.inProgress →
        ∀ e : Unit, (complete_assessment inProgressStore sid (.error e)).2.get sid =
          some { s with
                 suggested_icd10 := some ("Z03.89"),
                 suggested_condition_name :=
                   some ("Observation for suspected condition"),
                 status := .pendingReview, current_question_id := none }) :=
  c3_pending_review_has_suggestion inProgressStore
    (.complete ("s1") (.error ()))
    (by
      intro id s hg hp
      by_cases h : ("s1") = id
      · simp [inProgressStore, Store.get, h] at hg
        rw [← hg] at hp
        simp [inProgressSession, sampleSession] at hp
      · simp [inProgressStore, Store.get, h] at hg)
    trivial

/-- A pending-review session whose suggested code is the empty string
(reachable when the engine's top condition lists `""` as its first code:
`accept_diagnosis` treats it as absent via Python truthiness). -/
def emptySuggSession : Session :=
  { sampleSession with
    suggested_icd10 := some (""),
    suggested_condition_name := some ("Undetermined") }

/-- A one-session store holding `emptySuggSession` under key `"s1"`. -/
def emptySuggStore : Store := [(("s1"), emptySuggSession)]

/-- Counterexample to C4 as stated: every condition of the claim holds — the
session exists, is `PENDING_REVIEW`, has a NON-NULL suggested code (`""`),
the clinician id is non-empty and the notes have length ≥ 10 — yet
`accept_diagnosis` fails with `InvalidState`, because the handler's guard is
Python truthiness (`if not session.suggested_icd10`), which also rejects the
empty string. -/
theorem c4_counterexample :
    Store.get emptySuggStore ("s1") = some emptySuggSession
    ∧ emptySuggSession.status = SessionStatus.pendingReview
    ∧ emptySuggSession.suggested_icd10 ≠ none
    ∧ 1 ≤ String.length ("dr1")
    ∧ 10 ≤ String.length ("careful review done")
    ∧ accept_diagnosis emptySuggStore ("s1") ("dr1") ("careful review done") 9 =
        (.error .invalidState, emptySuggStore) := by
  decide

/-- C4 (amended): `AcceptSuggestion` succeeds exactly when the session exists,
its status is `PENDING_REVIEW`, a NON-EMPTY suggested code is present, the
clinician id is non-empty and the notes have length ≥ 10 (notes of length 9
fail with `ValidationError` before any mutation); on success it sets
`reviewed_at`, `clinician_id`, `decision = "accepted"`, the final code copied
verbatim from the suggestion, the notes, and status `REVIEWED`, all together;
a missing suggestion fails with `InvalidState`. -/
theorem c4_accept_characterization
    (st : Store) (id cid : String) (now : Nat) (s : Session)
    (h : st.get id = some s) (hst : s.status = SessionStatus.pendingReview)
    (hcid : 1 ≤ cid.length) :
    (∀ code notes, s.suggested_icd10 = some code → code ≠ ("") →
        10 ≤ notes.length →
        accept_diagnosis st id cid notes now =
          (.ok { session_id := id, decision := ("accepted"),
                 final_icd10 := code, reviewed_by := cid, reviewed_at := now },
           st.set id { s with
                       status := .reviewed, reviewed_at := some now,
                       clinician_id := some cid,
                       decision := some ("accepted"),
                       final_icd10 := some code,
                       clinician_notes := some notes }))
    ∧ (∀ notes, notes.length < 10 →
        accept_diagnosis st id cid notes now = (.error .validationError, st))
    ∧ (∀ notes, 10 ≤ notes.length → s.suggested_icd10 = none →
        accept_diagnosis st id cid notes now = (.error .invalidState, st)) := by
  refine ⟨?_, ?_, ?_⟩
  · intro code notes hcode hne hlen
    simp [accept_diagnosis, AcceptDecision.parse, h, hst, pyStrFalsy, hcode,
      hne, Nat.not_lt.mpr hcid, Nat.not_lt.mpr hlen]
  · intro notes hlt
    simp [accept_diagnosis, AcceptDecision.parse, hlt, Nat.not_lt.mpr hcid]
  · intro notes hlen hnone
    simp [accept_diagnosis, AcceptDecision.parse, h, hst, pyStrFalsy, hnone,
      Nat.not_lt.mpr hcid, Nat.not_lt.mpr hlen]

/-- Witness for C4 at a concrete pending-review session with suggestion
`"M17.11"`; the notes string has exactly 10 characters. -/
theorem c4_witness :
    Store.get sampleStore ("s1") = some sampleSession
    ∧ sampleSession.status = SessionStatus.pendingReview
    ∧ 1 ≤ String.length ("dr1")
    ∧ String.length ("accept: ok") = 10
    ∧ ((∀ code notes, sampleSession.suggested_icd10 = some code →
          code ≠ ("") → 10 ≤ notes.length →
          accept_diagnosis sampleStore ("s1") ("dr1") notes 9 =
            (.ok { session_id := ("s1"), decision := ("accepted"),
                   final_icd10 := code, reviewed_by := ("dr1"),
                   reviewed_at := 9 },
             sampleStore.set ("s1")
               { sampleSession with
                 status := .reviewed, reviewed_at := some 9,
                 clinician_id := some ("dr1"),
                 decision := some ("accepted"),
                 final_icd10 := some code,
                 clinician_notes := some notes }))
      ∧ (∀ notes, notes.length < 10 →
          accept_diagnosis sampleStore ("s1") ("dr1") notes 9 =
            (.error .validationError, sampleStore))
      ∧ (∀ notes, 10 ≤ notes.length →
          sampleSession.suggested_icd10 = none →
          accept_diagnosis sampleStore ("s1") ("dr1") notes 9 =
            (.error .invalidState, sampleStore))) :=
  ⟨by decide, by decide, by decide, by decide,
   c4_accept_characterization sampleStore ("s1") ("dr1") 9 sampleSession
     (by decide) (by decide) (by decide)⟩

/-- Counterexample to C5 as stated: the replacement code `"   "` (three
spaces) passes the raw `min_length=3` constraint, and after trimming it does
not start with a letter, so by the claim the request should fail with
`ValidationError`; instead `v.strip().upper()` is empty and `v[0]` raises
`IndexError`, which pydantic does not convert — the request dies with an
internal error, not a `ValidationError`. -/
theorem c5_counterexample :
    String.length ("   ") = 3
    ∧ pyStrip ("   ") = ("")
    ∧ reject_and_replace sampleStore ("s1") ("dr1") ("   ")
        ("the suggested code is not supported") 9 =
        (.error .internalError, sampleStore) := by
  decide

/-- A pending-review session with no suggestion at all (rejection must still
be possible on it). -/
def pendingNoSuggSession : Session :=
  { sampleSession with
    suggested_icd10 := none, suggested_condition_name := none }

/-- A one-session store holding `pendingNoSuggSession` under key `"s1"`. -/
def pendingNoSuggStore : Store := [(("s1"), pendingNoSuggSession)]

/-- C5 (amended): `RejectAndReplace` requires status `PENDING_REVIEW`, a
non-empty clinician id, a reason of ≥ 20 characters and a replacement code
accepted by the format validator (trimmed, uppercased, starting with a
letter) — a replacement failing the letter-start check fails with
`ValidationError`, except that raw input of length ≥ 3 trimming to the empty
string crashes with an internal error instead; `"m25.561"` normalizes to
`"M25.561"` and is accepted, `"123.45"` is rejected; the suggested code is
never required; on success it sets `decision = "rejected_replaced"`, the
normalized replacement as final code, the reason as notes, and status
`REVIEWED`. -/
theorem c5_reject_characterization
    (st : Store) (id cid : String) (now : Nat) (s : Session)
    (h : st.get id = some s) (hst : s.status = SessionStatus.pendingReview)
    (hcid : 1 ≤ cid.length) :
    (∀ repl reason v, validate_icd10_format repl = .ok v →
        3 ≤ repl.length → 20 ≤ reason.length →
        reject_and_replace st id cid repl reason now =
          (.ok { session_id := id, decision := ("rejected_replaced"),
                 final_icd10 := v, reviewed_by := cid, reviewed_at := now },
           st.set id { s with
                       status := .reviewed, reviewed_at := some now,
                       clinician_id := some cid,
                       decision := some ("rejected_replaced"),
                       final_icd10 := some v,
                       clinician_notes := some reason }))
    ∧ (∀ repl reason v, validate_icd10_format repl = .ok v →
        3 ≤ repl.length → reason.length < 20 →
        reject_and_replace st id cid repl reason now =
          (.error .validationError, st))
    ∧ (∀ repl reason, 3 ≤ repl.length →
        validate_icd10_format repl = .error .validationError →
        reject_and_replace st id cid repl reason now =
          (.error .validationError, st))
    ∧ validate_icd10_format ("m25.561") = .ok ("M25.561")
    ∧ validate_icd10_format ("123.45") = .error .validationError := by
  refine ⟨?_, ?_, ?_, by decide, by decide⟩
  · intro repl reason v hv hr3 hr20
    simp [reject_and_replace, RejectReplaceDecision.parse, hv, h, hst,
      Nat.not_lt.mpr hcid, Nat.not_lt.mpr hr3, Nat.not_lt.mpr hr20]
  · intro repl reason v hv hr3 hlt
    simp [reject_and_replace, RejectReplaceDecision.parse, hv, hlt,
      Nat.not_lt.mpr hcid, Nat.not_lt.mpr hr3]
  · intro repl reason hr3 hv
    simp [reject_and_replace, RejectReplaceDecision.parse, hv,
      Nat.not_lt.mpr hcid, Nat.not_lt.mpr hr3]

/-- Witness for C5 at a concrete pending-review session WITHOUT a suggested
code: rejection succeeds anyway, with `"m25.561"` normalized to
`"M25.561"`. -/
theorem c5_witness :
    Store.get pendingNoSuggStore ("s1") = some pendingNoSuggSession
    ∧ pendingNoSuggSession.status = SessionStatus.pendingReview
    ∧ pendingNoSuggSession.suggested_icd10 = none
    ∧ ((∀ repl reason v, validate_icd10_format repl = .ok v →
          3 ≤ repl.length → 20 ≤ reason.length →
          reject_and_replace pendingNoSuggStore ("s1") ("dr1") repl reason 9 =
            (.ok { session_id := ("s1"), decision := ("rejected_replaced"),
                   final_icd10 := v, reviewed_by := ("dr1"),
                   reviewed_at := 9 },
             pendingNoSuggStore.set ("s1")
               { pendingNoSuggSession with
                 status := .reviewed, reviewed_at := some 9,
                 clinician_id := some ("dr1"),
                 decision := some ("rejected_replaced"),
                 final_icd10 := some v,
                 clinician_notes := some reason }))
      ∧ (∀ repl reason v, validate_icd10_format repl = .ok v →
          3 ≤ repl.length → reason.length < 20 →
          reject_and_replace pendingNoSuggStore ("s1") ("dr1") repl reason 9 =
            (.error .validationError, pendingNoSuggStore))
      ∧ (∀ repl reason, 3 ≤ repl.length →
          validate_icd10_format repl = .error .validationError →
          reject_and_replace pendingNoSuggStore ("s1") ("dr1") repl reason 9 =
            (.error .validationError, pendingNoSuggStore))
      ∧ validate_icd10_format ("m25.561") = .ok ("M25.561")
      ∧ validate_icd10_format ("123.45") = .error .validationError) :=
  ⟨by decide, by decide, by decide,
   c5_reject_characterization pendingNoSuggStore ("s1") ("dr1") 9
     pendingNoSuggSession (by decide) (by decide) (by decide)⟩

/-- C6: `submit_answer` appends the verbatim `PatientResponse` and increments
`questions_asked` before consulting the engine; when the engine rejects the
answer (`ValueError` → `InvalidAnswer`) or the engine call fails with any
other exception, the operation fails but the stored session keeps the
appended response and the incremented counter (the storage `get` returned an
alias of the stored object), while its status and active question id are
unchanged. -/
theorem c6_answer_retained_on_engine_failure
    (st : Store) (id ans : String) (now : Nat) (s : Session)
    (h : st.get id = some s) (hst : s.status = SessionStatus.inProgress)
    (qid : String) (hq : s.current_question_id = some qid) (hqne : qid ≠ (""))
    (evalOutcome : Except Unit EngineEvalResult) :
    (submit_answer st id ans now .valueError evalOutcome =
      (.error .invalidAnswer,
       st.set id { s with
                   patient_responses := s.patient_responses ++
                     [{ question_id := qid,
                        question_text :=
                          ("Question ") ++ toString (s.questions_asked + 1),
                        answer := ans, timestamp := now }],
                   questions_asked := s.questions_asked + 1 }))
    ∧ (submit_answer st id ans now .failure evalOutcome =
      (.error .internalError,
       st.set id { s with
                   patient_responses := s.patient_responses ++
                     [{ question_id := qid,
                        question_text :=
                          ("Question ") ++ toString (s.questions_asked + 1),
                        answer := ans, timestamp := now }],
                   questions_asked := s.questions_asked + 1 }))
    ∧ (∀ r : PatientResponse,
        ({ s with
           patient_responses := s.patient_responses ++ [r],
           questions_asked := s.questions_asked + 1 } : Session).status =
            s.status
        ∧ ({ s with
             patient_responses := s.patient_responses ++ [r],
             questions_asked := s.questions_asked + 1 } : Session).current_question_id
              = s.current_question_id) := by
  refine ⟨?_, ?_, fun r => ⟨rfl, rfl⟩⟩
  · simp [submit_answer, h, hst, hq, pyStrFalsy, hqne]
  · simp [submit_answer, h, hst, hq, pyStrFalsy, hqne]

/-- Witness for C6 at a concrete in-progress session with active question
`"q1_location"`. -/
theorem c6_witness :
    Store.get inProgressStore ("s1") = some inProgressSession
    ∧ inProgressSession.status = SessionStatus.inProgress
    ∧ inProgressSession.current_question_id = some ("q1_location")
    ∧ ((submit_answer inProgressStore ("s1") ("Knee") 5 .valueError
          (.error ()) =
        (.error .invalidAnswer,
         inProgressStore.set ("s1")
           { inProgressSession with
             patient_responses := inProgressSession.patient_responses ++
               [{ question_id := ("q1_location"),
                  question_text :=
                    ("Question ") ++
                      toString (inProgressSession.questions_asked + 1),
                  answer := ("Knee"), timestamp := 5 }],
             questions_asked := inProgressSession.questions_asked + 1 }))
      ∧ (submit_answer inProgressStore ("s1") ("Knee") 5 .failure
            (.error ()) =
        (.error .internalError,
         inProgressStore.set ("s1")
           { inProgressSession with
             patient_responses := inProgressSession.patient_responses ++
               [{ question_id := ("q1_location"),
                  question_text :=
                    ("Question ") ++
                      toString (inProgressSession.questions_asked + 1),
                  answer := ("Knee"), timestamp := 5 }],
             questions_asked := inProgressSession.questions_asked + 1 }))
      ∧ (∀ r : PatientResponse,
          ({ inProgressSession with
             patient_responses := inProgressSession.patient_responses ++ [r],
             questions_asked := inProgressSession.questions_asked + 1 } :
               Session).status = inProgressSession.status
          ∧ ({ inProgressSession with
               patient_responses := inProgressSession.patient_responses ++ [r],
               questions_asked := inProgressSession.questions_asked + 1 } :
                 Session).current_question_id =
              inProgressSession.current_question_id)) :=
  ⟨by decide, by decide, by decide,
   c6_answer_retained_on_engine_failure inProgressStore ("s1") ("Knee") 5
     inProgressSession (by decide) (by decide) ("q1_location") (by decide)
     (by decide) (.error ())⟩

/-- C7 (code bug): when the engine returns no first question for a stored
in-progress session with a chief complaint, `start_chat` answers
"Assessment complete. A clinician will review your responses." but does NOT
transition the session to `PENDING_REVIEW` — it performs no store write at
all, and the session stays `IN_PROGRESS` (so it never appears in the
clinician's pending queue).  The otherwise-branch behaves as described:
the returned question id is recorded as the active question and the status
stays `IN_PROGRESS`. -/
theorem c7_no_transition_on_missing_first_question :
    start_chat inProgressStore ("s1") none =
      (.ok { session_id := ("s1"), question := none,
             message := "Assessment complete. A clinician will review your responses." },
       inProgressStore)
    ∧ ((start_chat inProgressStore ("s1") none).2.get ("s1")).map
        Session.status = some SessionStatus.inProgress
    ∧ (∀ q : QuestionResult,
        (start_chat inProgressStore ("s1") (some q)).2.get ("s1") =
          some { inProgressSession with
                 current_question_id := some q.question_id }
        ∧ ((start_chat inProgressStore ("s1") (some q)).2.get ("s1")).map
            Session.status = some SessionStatus.inProgress) := by
  refine ⟨by decide, by decide, ?_⟩
  intro q
  constructor
  · simp [start_chat, inProgressStore, Store.get, pyStrFalsy,
      inProgressSession, sampleSession, Store.get_set_self]
  · simp [start_chat, inProgressStore, Store.get, pyStrFalsy,
      inProgressSession, sampleSession, Store.get_set_self]

/-- Counterexample to C8 as stated: `create_session` with the EMPTY chief
complaint does not fail with `ValidationError` — its result type has no error
case at all (`CreateSessionRequest` carries no `min_length` and the handler
validates nothing); the empty complaint is accepted and the session is
stored. -/
theorem c8_counterexample :
    (create_session [] ("id0") 0 ("")).1 =
      { session_id := ("id0"), status := ("in_progress"), created_at := 0 }
    ∧ (create_session [] ("id0") 0 ("")).2.get ("id0") =
      some { session_id := ("id0"), status := .inProgress, created_at := 0,
             chief_complaint := some (""), patient_responses := [],
             suggested_icd10 := none, suggested_condition_name := none,
             reviewed_at := none, clinician_id := none, decision := none,
             final_icd10 := none, clinician_notes := none,
             current_question_id := none, questions_asked := 0 } := by
  decide

/-- C8 (amended): `create_session` performs no validation of the chief
complaint: for every complaint, including the empty string, it succeeds,
allocating the supplied fresh identifier and storing a session with status
`IN_PROGRESS`, zero patient responses and zero questions asked. -/
theorem c8_create_always_succeeds
    (st : Store) (fresh : String) (now : Nat) (chief : String) :
    (create_session st fresh now chief).1 =
      { session_id := fresh, status := ("in_progress"), created_at := now }
    ∧ (create_session st fresh now chief).2.get fresh =
      some { session_id := fresh, status := .inProgress, created_at := now,
             chief_complaint := some chief, patient_responses := [],
             suggested_icd10 := none, suggested_condition_name := none,
             reviewed_at := none, clinician_id := none, decision := none,
             final_icd10 := none, clinician_notes := none,
             current_question_id := none, questions_asked := 0 } := by
  exact ⟨rfl, by simp [create_session, Store.get_set_self]⟩

/-- C9: after every operation, every stored session still satisfies
`patient_responses.length = questions_asked`; the counter never decreases
and already-recorded responses are never removed (the old list is an initial
segment of the new one); and every freshly created session starts with zero
responses and a zero counter. -/
theorem c9_response_count_invariant
    (op : Op) (st : Store) (id : String) (s s2 : Session)
    (hfresh : Op.freshOk op st) (h : st.get id = some s)
    (h2 : (Op.apply op st).get id = some s2)
    (hinv : s.patient_responses.length = s.questions_asked) :
    (s2.patient_responses.length = s2.questions_asked
     ∧ s.questions_asked ≤ s2.questions_asked
     ∧ s2.patient_responses.take s.patient_responses.length =
         s.patient_responses)
    ∧ (∀ (st3 : Store) (fresh chief : String) (now : Nat) (t : Session),
        (create_session st3 fresh now chief).2.get fresh = some t →
        t.patient_responses.length = 0 ∧ t.questions_asked = 0) := by
  constructor
  · cases op with
    | create fresh nowc chief =>
        simp only [Op.apply, create_session] at h2
        have hne : fresh ≠ id := by
          intro he
          simp only [Op.freshOk] at hfresh
          rw [he, h] at hfresh
          cases hfresh
        rw [Store.get_set_ne st fresh id _ hne, h] at h2
        injection h2 with h2
        subst h2
        exact ⟨hinv, Nat.le_refl _, List.take_length _⟩
    | getView sid =>
        simp only [Op.apply] at h2
        rw [h] at h2
        injection h2 with h2
        subst h2
        exact ⟨hinv, Nat.le_refl _, List.take_length _⟩
    | startChat sid engineFirst =>
        by_cases he : sid = id
        · subst he
          simp only [Op.apply] at h2
          unfold start_chat at h2
          rw [h] at h2
          by_cases h1 : s.status ≠ SessionStatus.inProgress
          · simp [h1, h] at h2
            subst h2
            exact ⟨hinv, Nat.le_refl _, List.take_length _⟩
          · by_cases hc : pyStrFalsy s.chief_complaint
            · simp [h1, hc, h] at h2
              subst h2
              exact ⟨hinv, Nat.le_refl _, List.take_length _⟩
            · cases engineFirst with
              | none =>
                  simp [h1, hc, h] at h2
                  subst h2
                  exact ⟨hinv, Nat.le_refl _, List.take_length _⟩
              | some q =>
                  simp [h1, hc, Store.get_set_self] at h2
                  subst h2
                  exact ⟨hinv, Nat.le_refl _, List.take_length _⟩
        · simp only [Op.apply] at h2
          rw [start_chat_get_other st sid engineFirst id he, h] at h2
          injection h2 with h2
          subst h2
          exact ⟨hinv, Nat.le_refl _, List.take_length _⟩
    | answer sid ans nowa engine evalOutcome =>
        by_cases he : sid = id
        · subst he
          simp only [Op.apply] at h2
          unfold submit_answer at h2
          rw [h] at h2
          by_cases h1 : s.status ≠ SessionStatus.inProgress
          · simp [h1, h] at h2
            subst h2
            exact ⟨hinv, Nat.le_refl _, List.take_length _⟩
          · by_cases hc : pyStrFalsy s.current_question_id
            · simp [h1, hc, h] at h2
              subst h2
              exact ⟨hinv, Nat.le_refl _, List.take_length _⟩
            · cases engine with
              | valueError =>
                  simp [h1, hc, Store.get_set_self] at h2
                  subst h2
                  refine ⟨by simp [hinv], by simp, List.take_left _ _⟩
              | failure =>
                  simp [h1, hc, Store.get_set_self] at h2
                  subst h2
                  refine ⟨by simp [hinv], by simp, List.take_left _ _⟩
              | next q =>
                  cases q with
                  | some q =>
                      simp [h1, hc, Store.set_set, Store.get_set_self] at h2
                      subst h2
                      refine ⟨by simp [hinv], by simp, List.take_left _ _⟩
                  | none =>
                      cases evalOutcome with
                      | error e =>
                          simp [h1, hc, Store.get_set_self] at h2
                          subst h2
                          refine ⟨by simp [hinv], by simp, List.take_left _ _⟩
                      | ok res =>
                          simp [h1, hc, Store.set_set,
                            Store.get_set_self] at h2
                          subst h2
                          refine ⟨by simp [hinv], by simp, List.take_left _ _⟩
        · simp only [Op.apply] at h2
          rw [submit_answer_get_other st sid ans nowa engine evalOutcome id he,
            h] at h2
          injection h2 with h2
          subst h2
          exact ⟨hinv, Nat.le_refl _, List.take_length _⟩
    | complete sid evalOutcome =>
        by_cases he : sid = id
        · subst he
          simp only [Op.apply] at h2
          unfold complete_assessment at h2
          rw [h] at h2
          by_cases h1 : s.status ≠ SessionStatus.inProgress
          · simp [h1, h] at h2
            subst h2
            exact ⟨hinv, Nat.le_refl _, List.take_length _⟩
          · simp [h1, Store.get_set_self] at h2
            subst h2
            exact ⟨hinv, Nat.le_refl _, List.take_length _⟩
        · simp only [Op.apply] at h2
          rw [complete_assessment_get_other st sid evalOutcome id he, h] at h2
          injection h2 with h2
          subst h2
          exact ⟨hinv, Nat.le_refl _, List.take_length _⟩
    | accept sid cid notes now2 =>
        by_cases he : sid = id
        · subst he
          simp only [Op.apply] at h2
          unfold accept_diagnosis at h2
          cases hpe : AcceptDecision.parse cid notes with
          | error e =>
              simp [hpe, h] at h2
              subst h2
              exact ⟨hinv, Nat.le_refl _, List.take_length _⟩
          | ok d =>
              rw [hpe, h] at h2
              by_cases h1 : s.status ≠ SessionStatus.pendingReview
              · simp [h1, h] at h2
                subst h2
                exact ⟨hinv, Nat.le_refl _, List.take_length _⟩
              · by_cases hsg : pyStrFalsy s.suggested_icd10
                · simp [h1, hsg, h] at h2
                  subst h2
                  exact ⟨hinv, Nat.le_refl _, List.take_length _⟩
                · simp [h1, hsg, Store.get_set_self] at h2
                  subst h2
                  exact ⟨hinv, Nat.le_refl _, List.take_length _⟩
        · simp only [Op.apply] at h2
          rw [accept_diagnosis_get_other st sid cid notes now2 id he, h] at h2
          injection h2 with h2
          subst h2
          exact ⟨hinv, Nat.le_refl _, List.take_length _⟩
    | reject sid cid repl reason now2 =>
        by_cases he : sid = id
        · subst he
          simp only [Op.apply] at h2
          unfold reject_and_replace at h2
          cases hpe : RejectReplaceDecision.parse cid repl reason with
          | error e =>
              simp [hpe, h] at h2
              subst h2
              exact ⟨hinv, Nat.le_refl _, List.take_length _⟩
          | ok d =>
              rw [hpe, h] at h2
              by_cases h1 : s.status ≠ SessionStatus.pendingReview
              · simp [h1, h] at h2
                subst h2
                exact ⟨hinv, Nat.le_refl _, List.take_length _⟩
              · simp [h1, Store.get_set_self] at h2
                subst h2
                exact ⟨hinv, Nat.le_refl _, List.take_length _⟩
        · simp only [Op.apply] at h2
          rw [reject_and_replace_get_other st sid cid repl reason now2 id he,
            h] at h2
          injection h2 with h2
          subst h2
          exact ⟨hinv, Nat.le_refl _, List.take_length _⟩
  · intro st3 fresh chief now t ht
    simp [create_session, Store.get_set_self] at ht
    subst ht
    exact ⟨rfl, rfl⟩

/-- Witness for C9: a concrete `submit_answer` step (engine rejects the
answer) on a concrete in-progress session; the response list grows from 0 to
1 together with the counter. -/
theorem c9_witness :
    Op.freshOk (.answer ("s1") ("Knee") 5 .valueError (.error ()))
        inProgressStore
    ∧ Store.get inProgressStore ("s1") = some inProgressSession
    ∧ (Op.apply (.answer ("s1") ("Knee") 5 .valueError (.error ()))
          inProgressStore).get ("s1") =
        some { inProgressSession with
               patient_responses :=
                 [{ question_id := ("q1_location"),
                    question_text := ("Question 1"),
                    answer := ("Knee"), timestamp := 5 }],
               questions_asked := 1 }
    ∧ inProgressSession.patient_responses.length =
        inProgressSession.questions_asked
    ∧ ((({ inProgressSession with
           patient_responses :=
             [{ question_id := ("q1_location"),
                question_text := ("Question 1"),
                answer := ("Knee"), timestamp := 5 }],
           questions_asked := 1 } : Session).patient_responses.length =
          ({ inProgressSession with
             patient_responses :=
               [{ question_id := ("q1_location"),
                  question_text := ("Question 1"),
                  answer := ("Knee"), timestamp := 5 }],
             questions_asked := 1 } : Session).questions_asked
        ∧ inProgressSession.questions_asked ≤
            ({ inProgressSession with
               patient_responses :=
                 [{ question_id := ("q1_location"),
                    question_text := ("Question 1"),
                    answer := ("Knee"), timestamp := 5 }],
               questions_asked := 1 } : Session).questions_asked
        ∧ ({ inProgressSession with
             patient_responses :=
               [{ question_id := ("q1_location"),
                  question_text := ("Question 1"),
                  answer := ("Knee"), timestamp := 5 }],
             questions_asked := 1 } : Session).patient_responses.take
              inProgressSession.patient_responses.length =
            inProgressSession.patient_responses)
      ∧ (∀ (st3 : Store) (fresh chief : String) (now : Nat) (t : Session),
          (create_session st3 fresh now chief).2.get fresh = some t →
          t.patient_responses.length = 0 ∧ t.questions_asked = 0)) :=
  ⟨trivial, by decide, by decide, by decide,
   c9_response_count_invariant
     (.answer ("s1") ("Knee") 5 .valueError (.error ())) inProgressStore
     ("s1") inProgressSession
     { inProgressSession with
       patient_responses :=
         [{ question_id := ("q1_location"), question_text := ("Question 1"),
            answer := ("Knee"), timestamp := 5 }],
       questions_asked := 1 }
     trivial (by decide) (by decide) (by decide)⟩

/-- C10: `reject_and_replace` rejects with `ValidationError` every
replacement code whose raw input has length < 3 — pydantic's
`min_length=3` runs on the raw string before the format validator, so even a
1- or 2-character code starting with a letter (such as `"A1"`) fails. -/
theorem c10_short_replacement_rejected
    (st : Store) (id cid repl reason : String) (now : Nat)
    (hlen : repl.length < 3) :
    reject_and_replace st id cid repl reason now =
      (.error .validationError, st)
    ∧ RejectReplaceDecision.parse ("dr1") ("A1")
        ("replacement justified by imaging") = .error .validationError := by
  constructor
  · by_cases hc : cid.length < 1
    · simp [reject_and_replace, RejectReplaceDecision.parse, hc, hlen]
    · simp [reject_and_replace, RejectReplaceDecision.parse, hc, hlen]
  · decide

/-- Witness for C10 with the two-character, letter-initial code `"A1"`. -/
theorem c10_witness :
    String.length ("A1") < 3
    ∧ (reject_and_replace sampleStore ("s1") ("dr1") ("A1")
          ("replacement justified by imaging") 9 =
        (.error .validationError, sampleStore)
      ∧ RejectReplaceDecision.parse ("dr1") ("A1")
          ("replacement justified by imaging") = .error .validationError) :=
  ⟨by decide,
   c10_short_replacement_rejected sampleStore ("s1") ("dr1") ("A1")
     ("replacement justified by imaging") 9 (by decide)⟩
